import Mathlib

/-!
# Verification of the gbars Game Boy emulation core

A shallow embedding, in Lean 4, of the register file, memory bank
controllers, address bus, stack operations and cartridge validation of the
gbars emulator, together with theorems settling the frozen claims about the
natural-language specification of that code.

Machine integers are modelled as `Nat` with explicit reductions modulo
2^8 / 2^16 exactly where the Rust source wraps (`u8` / `u16` semantics).
Fallible operations return `Option` / `Except`; a Rust `panic` (including an
out-of-bounds `Vec` index and an `Option::unwrap` of `None`) is modelled by a
dedicated constructor or by `none`, as noted at each definition.
-/

namespace Gbars

/-! ## utils (src/src/classic/utils.rs) -/

/-- Rust `wrapping_inc_8` from utils.rs: `n.wrapping_add(1)` on `u8`. -/
def wrapping_inc_8 (n : Nat) : Nat := (n + 1) % 256

/-- Rust `wrapping_dec_8` from utils.rs: `n.wrapping_sub(1)` on `u8`. -/
def wrapping_dec_8 (n : Nat) : Nat := (n + 255) % 256

/-- Rust `wrapping_inc_16` from utils.rs: `n.wrapping_add(1)` on `u16`. -/
def wrapping_inc_16 (n : Nat) : Nat := (n + 1) % 65536

/-- Rust `wrapping_dec_16` from utils.rs: `n.wrapping_sub(1)` on `u16`. -/
def wrapping_dec_16 (n : Nat) : Nat := (n + 65535) % 65536

/-! ## Register file (src/src/classic/registers.rs)

The `Reg8` newtype wrapper is transparent in this embedding: each register is
a `Nat` holding a byte value. Every store reduces modulo 256, mirroring the
`u8` type of the wrapped field. -/

/-- The register file: eight 8-bit registers and the two 16-bit pointer
registers (`Registers` struct, registers.rs lines 11-22). -/
structure Registers where
  a : Nat
  f : Nat
  b : Nat
  c : Nat
  d : Nat
  e : Nat
  h : Nat
  l : Nat
  sp : Nat
  pc : Nat
deriving DecidableEq, Repr

/-- Rust `Registers::init` (registers.rs lines 25-38): everything zeroed. -/
def Registers.init : Registers :=
  { a := 0, f := 0, b := 0, c := 0, d := 0, e := 0, h := 0, l := 0, sp := 0, pc := 0 }

/-- Rust `Registers::get_bc` (registers.rs lines 113-117): bitpack of B (high) and
C (low). -/
def Registers.get_bc (r : Registers) : Nat := r.b % 256 * 256 + r.c % 256

/-- Rust `Registers::set_bc` (registers.rs lines 119-124): the bitmatch splits the
16-bit value into its high and low bytes. -/
def Registers.set_bc (r : Registers) (val : Nat) : Registers :=
  { r with b := val / 256 % 256, c := val % 256 }

/-- Rust `Registers::get_de` (registers.rs lines 135-139). NOTE: the source binds
the low byte to `self.c.0`: `let (d, e) = (self.d.0, self.c.0);`. The
embedding reproduces that binding. -/
def Registers.get_de (r : Registers) : Nat :=
  let d := r.d
  let e := r.c
  d % 256 * 256 + e % 256

/-- Rust `Registers::set_de` (registers.rs lines 141-146). -/
def Registers.set_de (r : Registers) (val : Nat) : Registers :=
  { r with d := val / 256 % 256, e := val % 256 }

/-- Rust `Registers::get_hl` (registers.rs lines 157-161). -/
def Registers.get_hl (r : Registers) : Nat := r.h % 256 * 256 + r.l % 256

/-- Rust `Registers::set_hl` (registers.rs lines 163-168). -/
def Registers.set_hl (r : Registers) (val : Nat) : Registers :=
  { r with h := val / 256 % 256, l := val % 256 }

/-- Rust `Registers::get_af` (registers.rs lines 181-185). -/
def Registers.get_af (r : Registers) : Nat := r.a % 256 * 256 + r.f % 256

/-- Rust `Registers::set_af` (registers.rs lines 187-192). -/
def Registers.set_af (r : Registers) (val : Nat) : Registers :=
  { r with a := val / 256 % 256, f := val % 256 }

/-- One turn of the loop body of `Registers::set_flags` (registers.rs lines
392-398): or-in the bit when the `Option` is `Some`, then always shift. -/
def flag_fold (f : Nat) (o : Option Bool) : Nat :=
  (match o with
    | some b => f ||| (if b then 1 else 0)
    | none => f) <<< 1

/-- Rust `Registers::set_flags` (registers.rs lines 390-401): builds a fresh flag
byte from the four `Option<bool>` arguments (z, n, h, c in that order) and
stores `f << 3`. A `None` argument contributes a zero bit: the previous value
of that flag is NOT consulted. -/
def Registers.set_flags (r : Registers) (z n h c : Option Bool) : Registers :=
  let fv := flag_fold (flag_fold (flag_fold (flag_fold 0 z) n) h) c
  { r with f := (fv <<< 3) % 256 }

/-- Rust `Registers::zero` (registers.rs lines 403-407): bit 7 of F. -/
def Registers.zero (r : Registers) : Bool := r.f.testBit 7

/-- Rust `Registers::neg` (registers.rs lines 409-413): bit 6 of F. -/
def Registers.neg (r : Registers) : Bool := r.f.testBit 6

/-- Rust `Registers::half_carry` (registers.rs lines 415-419): bit 5 of F. -/
def Registers.half_carry (r : Registers) : Bool := r.f.testBit 5

/-- Rust `Registers::carry_bit` (registers.rs lines 421-425): bit 4 of F as 0/1. -/
def Registers.carry_bit (r : Registers) : Nat := r.f >>> 4 &&& 1

/-- Rust `Registers::carry` (registers.rs line 427). -/
def Registers.carry (r : Registers) : Bool := r.carry_bit = 1

/-- Rust `Registers::half_carry_occurred` (registers.rs lines 458-460):
`((b & 0x0F) + (a & 0x0F)) & 0x10 == 0x10`. -/
def Registers.half_carry_occurred (b a : Nat) : Bool :=
  ((b &&& 0x0F) + (a &&& 0x0F)) &&& 0x10 = 0x10

/-- Rust `Registers::half_borrow_occurred` (registers.rs lines 482-484):
`((!b & 0x0F) + (a & 0x0F)) & 0x10 == 0x10`; `!b` is the 8-bit complement. -/
def Registers.half_borrow_occurred (b a : Nat) : Bool :=
  (((b ^^^ 0xFF) &&& 0x0F) + (a &&& 0x0F)) &&& 0x10 = 0x10

/-- Rust `Registers::add` (registers.rs lines 196-207). `self.a += data` wraps
(`Reg8: AddAssign<u8>` uses `wrapping_add`); the carry argument is the
comparison `before > after`, the half-carry argument is
`half_carry_occurred(before, after)` where `after` is the result byte. -/
def Registers.add (r : Registers) (data : Nat) : Registers :=
  let before := r.a
  let after := (r.a + data % 256) % 256
  ({ r with a := after } : Registers).set_flags
    (some (decide (after = 0)))
    (some false)
    (some (Registers.half_carry_occurred before after))
    (some (decide (before > after)))

/-- Rust `Registers::sub` (registers.rs lines 222-233): wrapping subtraction, with
`half_borrow_occurred(before, after)` and carry `before < after`. -/
def Registers.sub (r : Registers) (data : Nat) : Registers :=
  let before := r.a
  let after := (r.a + 256 - data % 256) % 256
  ({ r with a := after } : Registers).set_flags
    (some (decide (after = 0)))
    (some true)
    (some (Registers.half_borrow_occurred before after))
    (some (decide (before < after)))

/-- Rust `Registers::daa` (registers.rs lines 300-327). In the `self.neg()` branch
the source ADDS the 0x60 / 0x06 adjustments (setting `new_carry` for the
0x60 one); in the other branch it SUBTRACTS them. The bare `self.a.0 += 0x06`
and `self.a.0 -= 0x60` / `-= 0x06` operate on the raw `u8` (wrapping is the
release-mode semantics, modelled here with explicit mod 256). The final
`set_flags` passes `None` for N. -/
def Registers.daa (r : Registers) : Registers :=
  if r.neg then
    let (r1, new_carry) :=
      if r.carry || decide (r.a > 0x99) then
        (({ r with a := (r.a + 0x60) % 256 } : Registers), true)
      else (r, false)
    let r2 :=
      if r1.half_carry || decide (r1.a &&& 0x0F > 0x09) then
        ({ r1 with a := (r1.a + 0x06) % 256 } : Registers)
      else r1
    r2.set_flags (some (decide (r2.a = 0))) none (some false) (some new_carry)
  else
    let r1 :=
      if r.carry then ({ r with a := (r.a + 256 - 0x60) % 256 } : Registers) else r
    let r2 :=
      if r1.half_carry then ({ r1 with a := (r1.a + 256 - 0x06) % 256 } : Registers) else r1
    r2.set_flags (some (decide (r2.a = 0))) none (some false) (some false)

/-- Rust `Registers::cpl` (registers.rs lines 329-338): 8-bit complement of A,
then `set_flags(None, Some(true), Some(true), None)`. -/
def Registers.cpl (r : Registers) : Registers :=
  ({ r with a := (r.a % 256) ^^^ 0xFF } : Registers).set_flags
    none (some true) (some true) none

/-- The SCF arm of `Cpu::exec` (src/src/classic/cpu.rs lines 212-218):
`set_flags(None, Some(false), Some(false), Some(true))`. -/
def Cpu.scf (r : Registers) : Registers :=
  r.set_flags none (some false) (some false) (some true)

/-- The CCF arm of `Cpu::exec` (src/src/classic/cpu.rs lines 220-226):
`set_flags(None, Some(false), Some(false), Some(!carry))`. -/
def Cpu.ccf (r : Registers) : Registers :=
  r.set_flags none (some false) (some false) (some (!r.carry))

/-- The flag update of the 8-bit DEC arm of `Cpu::exec`
(src/src/classic/cpu.rs lines 313-348): after computing
`after = wrapping_dec_8(before)` and storing it, the arm calls
`set_flags(Some(after == 0), Some(false), Some(half_borrow_occurred(before,
after)), None)`. -/
def Cpu.dec8_flags (r : Registers) (before : Nat) : Registers :=
  let after := wrapping_dec_8 before
  r.set_flags (some (decide (after = 0))) (some false)
    (some (Registers.half_borrow_occurred before after)) none

/-! ## Cartridge memory (src/src/classic/memory.rs)

`Vec<u8>` is modelled as `List Nat` (each element a byte value). -/

/-- Rust `ROM` (memory.rs line 5): a vector of bytes. -/
structure ROM where
  data : List Nat
deriving DecidableEq, Repr

/-- Rust `RAM` (memory.rs line 16): a read/write vector of bytes. -/
structure RAM where
  data : List Nat
deriving DecidableEq, Repr

/-- Rust `MbcMode` (memory.rs lines 43-46). -/
inductive MbcMode
  | RomSelect
  | RamSelect
deriving DecidableEq, Repr

/-- Rust `MBC1` (memory.rs lines 48-55). -/
structure MBC1 where
  rom : ROM
  ram : RAM
  active_rom_bank : Nat
  active_ram_bank : Nat
  ram_enabled : Bool
  mode : MbcMode
deriving DecidableEq, Repr

/-- Rust `MBC2` (memory.rs lines 57-63). -/
structure MBC2 where
  rom : ROM
  ram : RAM
  active_rom_bank : Nat
  active_ram_bank : Nat
  ram_enabled : Bool
deriving DecidableEq, Repr

/-- Rust `MBC3` (memory.rs lines 65-71). -/
structure MBC3 where
  rom : ROM
  ram : RAM
  active_rom_bank : Nat
  active_ram_bank : Nat
  ram_and_timer_enabled : Bool
deriving DecidableEq, Repr

/-- Rust `MBC5` (memory.rs lines 73-79). -/
structure MBC5 where
  rom : ROM
  ram : RAM
  active_rom_bank : Nat
  active_ram_bank : Nat
  ram_enabled : Bool
deriving DecidableEq, Repr

/-- Rust `MBC` (memory.rs lines 35-41). -/
inductive MBC
  | MBC1 (mbc : MBC1)
  | MBC2 (mbc : MBC2)
  | MBC3 (mbc : MBC3)
  | MBC5 (mbc : MBC5)
  | RomOnly (rom : ROM)
deriving DecidableEq, Repr

/-- Rust `ROM::new` (memory.rs lines 82-84). -/
def ROM.new (contents : List Nat) : ROM := ⟨contents⟩

/-- Rust `ROM::read_byte` (memory.rs lines 86-91): `self.get(offset)` copied out. -/
def ROM.read_byte (rom : ROM) (offset : Nat) : Option Nat :=
  rom.data[offset]?

/-- Rust `ROM::read_bytes` (memory.rs lines 93-99): `None` when `end > len` or
`start > end`, otherwise the slice `[start, end)`. -/
def ROM.read_bytes (rom : ROM) (start stop : Nat) : Option (List Nat) :=
  if stop > rom.data.length ∨ start > stop then none
  else some ((rom.data.drop start).take (stop - start))

/-- Rust `RAM::new` (memory.rs lines 103-105): `Vec::with_capacity(size)`. The
capacity argument only pre-allocates; the vector it returns has length 0, so
the embedding is the empty list. -/
def RAM.new (_size : Nat) : RAM := ⟨[]⟩

/-- Rust `RAM::read_byte` (memory.rs lines 107-112). -/
def RAM.read_byte (ram : RAM) (offset : Nat) : Option Nat :=
  ram.data[offset]?

/-- Result of `RAM::write_byte`: `ok`/`err` mirror the Rust
`Result<usize, String>`; `panicked` marks the execution that reaches the
index expression `self[offset]` with `offset` out of bounds, which panics. -/
inductive WriteResult
  | ok (n : Nat)
  | err (msg : String)
  | panicked
deriving DecidableEq, Repr

/-- Rust `RAM::write_byte` (memory.rs lines 122-129): the guard rejects only
`offset > self.len()`; otherwise `self[offset] = data` — an index that panics
when `offset` equals the length. Stored data is a byte (`u8`). -/
def RAM.write_byte (ram : RAM) (offset data : Nat) : RAM × WriteResult :=
  if offset > ram.data.length then
    (ram, .err ("Could not write data at offset " ++ toString offset ++ ": Out of bounds"))
  else if offset < ram.data.length then
    (⟨ram.data.set offset (data % 256)⟩, .ok 1)
  else
    (ram, .panicked)

/-- The inner helper `read_rom_bank` of `MBC::read_rom` (memory.rs lines
152-159): offsets below 0x4000 read directly, others read
`0x4000 * bank + offset` — the source does NOT subtract 0x4000 first. -/
def read_rom_bank (rom : ROM) (offset bank : Nat) : Option Nat :=
  if offset < 0x4000 then rom.read_byte offset
  else rom.read_byte (0x4000 * bank + offset)

/-- Rust `MBC::read_rom` (memory.rs lines 151-182). For MBC1 the active bank is
masked to 5 bits in ROM-select mode and the values 0, 0x20, 0x40, 0x60 are
promoted to the next bank at read time. -/
def MBC.read_rom (m : MBC) (offset : Nat) : Option Nat :=
  match m with
  | .MBC1 mbc =>
    let arb :=
      match mbc.mode with
      | .RomSelect => mbc.active_rom_bank &&& 0x1F
      | .RamSelect => mbc.active_rom_bank
    let arb := if [0, 0x20, 0x40, 0x60].contains arb then arb + 1 else arb
    read_rom_bank mbc.rom offset arb
  | .MBC2 mbc => read_rom_bank mbc.rom offset mbc.active_rom_bank
  | .MBC3 mbc => read_rom_bank mbc.rom offset mbc.active_rom_bank
  | .MBC5 mbc => read_rom_bank mbc.rom offset mbc.active_rom_bank
  | .RomOnly rom => rom.read_byte offset

/-- The inner helper `read_rom_bank_slice` of `MBC::read_rom_slice`
(memory.rs lines 185-195). -/
def read_rom_bank_slice (rom : ROM) (start stop bank : Nat) : Option (List Nat) :=
  if start < 0x4000 then rom.read_bytes start stop
  else rom.read_bytes (0x4000 * bank + start) (0x4000 * bank + stop)

/-- Rust `MBC::read_rom_slice` (memory.rs lines 184-204); no bank promotion here. -/
def MBC.read_rom_slice (m : MBC) (start stop : Nat) : Option (List Nat) :=
  match m with
  | .MBC1 mbc => read_rom_bank_slice mbc.rom start stop mbc.active_rom_bank
  | .MBC2 mbc => read_rom_bank_slice mbc.rom start stop mbc.active_rom_bank
  | .MBC3 mbc => read_rom_bank_slice mbc.rom start stop mbc.active_rom_bank
  | .MBC5 mbc => read_rom_bank_slice mbc.rom start stop mbc.active_rom_bank
  | .RomOnly rom => rom.read_bytes start stop

/-- Rust `MBC::write_rom` (memory.rs lines 208-343): decodes bank-control writes.
The Rust ranges `a...b` are inclusive. The MBC3 latch arm
(`0x6000...0x7FFF`) has an empty body (`// TODO`), so it is a no-op here;
its guard's `mbc.rom[offset]` read is not modelled. -/
def MBC.write_rom (m : MBC) (offset data : Nat) : MBC :=
  match m with
  | .MBC1 mbc =>
    if offset ≤ 0x1FFF then
      if data = 0 then .MBC1 { mbc with ram_enabled := false }
      else if data &&& 0x0F = 0x0A then .MBC1 { mbc with ram_enabled := true }
      else .MBC1 mbc
    else if offset ≤ 0x3FFF then
      let bank_number := (data &&& 0x1F) ||| (mbc.active_rom_bank &&& 0x60)
      .MBC1 { mbc with active_rom_bank := bank_number }
    else if offset ≤ 0x5FFF then
      let bank_number := data &&& 0x02
      if mbc.ram_enabled then .MBC1 { mbc with active_ram_bank := bank_number }
      else
        .MBC1 { mbc with
          active_rom_bank := (bank_number <<< 5) ||| (mbc.active_rom_bank &&& 0x1F) }
    else if offset ≤ 0x7FFF then
      if data = 0 then .MBC1 { mbc with mode := .RomSelect }
      else if data = 1 then .MBC1 { mbc with mode := .RamSelect }
      else .MBC1 mbc
    else .MBC1 mbc
  | .MBC2 mbc =>
    if offset ≤ 0x1FFF then
      if offset &&& 0x0100 = 0 then
        if data = 0 then .MBC2 { mbc with ram_enabled := false }
        else if data &&& 0x0F = 0x0A then .MBC2 { mbc with ram_enabled := true }
        else .MBC2 mbc
      else .MBC2 mbc
    else if offset ≤ 0x3FFF then
      if offset &&& 0x0100 = 1 then
        .MBC2 { mbc with active_rom_bank := data &&& 0x0F }
      else .MBC2 mbc
    else .MBC2 mbc
  | .MBC3 mbc =>
    if offset ≤ 0x1FFF then
      if data = 0 then .MBC3 { mbc with ram_and_timer_enabled := false }
      else if data &&& 0x0F = 0x0A then .MBC3 { mbc with ram_and_timer_enabled := true }
      else .MBC3 mbc
    else if offset ≤ 0x3FFF then
      let bank_number := 0x7F &&& data
      let bank_number := if bank_number = 0 then 1 else bank_number
      .MBC3 { mbc with active_rom_bank := bank_number }
    else if offset ≤ 0x5FFF then
      if data ≤ 0x0C then .MBC3 { mbc with active_ram_bank := data }
      else .MBC3 mbc
    else .MBC3 mbc
  | .MBC5 mbc =>
    if offset ≤ 0x1FFF then
      if data = 0 then .MBC5 { mbc with ram_enabled := false }
      else if data &&& 0x0F = 0x0A then .MBC5 { mbc with ram_enabled := true }
      else .MBC5 mbc
    else if offset ≤ 0x2FFF then
      .MBC5 { mbc with active_rom_bank := data ||| (mbc.active_rom_bank &&& 0x0100) }
    else if offset ≤ 0x3FFF then
      .MBC5 { mbc with
        active_rom_bank := ((1 &&& data) <<< 8) ||| (mbc.active_ram_bank &&& 0x00FF) }
    else if offset ≤ 0x5FFF then
      .MBC5 { mbc with active_ram_bank := 0x0F &&& data }
    else .MBC5 mbc
  | .RomOnly rom => .RomOnly rom

/-- Rust `MBC::read_ram` (memory.rs lines 345-353). -/
def MBC.read_ram (m : MBC) (offset : Nat) : Option Nat :=
  match m with
  | .MBC1 mbc => mbc.ram.read_byte offset
  | .MBC2 mbc => mbc.ram.read_byte offset
  | .MBC3 mbc => mbc.ram.read_byte offset
  | .MBC5 mbc => mbc.ram.read_byte offset
  | .RomOnly _ => none

/-- Rust `MBC::write_ram` (memory.rs lines 365-373): dispatches to
`RAM::write_byte`; `RomOnly` returns `Ok(0)`. -/
def MBC.write_ram (m : MBC) (offset data : Nat) : MBC × WriteResult :=
  match m with
  | .MBC1 mbc =>
    let (ram, res) := mbc.ram.write_byte offset data
    (.MBC1 { mbc with ram }, res)
  | .MBC2 mbc =>
    let (ram, res) := mbc.ram.write_byte offset data
    (.MBC2 { mbc with ram }, res)
  | .MBC3 mbc =>
    let (ram, res) := mbc.ram.write_byte offset data
    (.MBC3 { mbc with ram }, res)
  | .MBC5 mbc =>
    let (ram, res) := mbc.ram.write_byte offset data
    (.MBC5 { mbc with ram }, res)
  | .RomOnly rom => (.RomOnly rom, .ok 0)

/-! ## Stack operations (src/gbars_hardware/src/classic/cpu.rs)

`Cpu::push_stack` / `Cpu::pop_stack` touch only the SP register and the
memory controller, so they are embedded as functions on `Registers × MBC`.
A panic (an out-of-bounds RAM index inside `write_ram`, or the `.unwrap()`
of a failed `read_ram`) yields `none`. -/

/-- Rust `Cpu::push_stack` (gbars_hardware cpu.rs lines 952-959): split the
address into high/low bytes, store the HIGH byte at SP, decrement SP, store
the LOW byte, decrement SP. The `Result` of each `write_ram` is discarded. -/
def Cpu.push_stack (regs : Registers) (memory : MBC) (addr : Nat) :
    Option (Registers × MBC) :=
  let hi := addr / 256 % 256
  let lo := addr % 256
  match MBC.write_ram memory regs.sp hi with
  | (_, .panicked) => none
  | (m1, _) =>
    let sp1 := wrapping_dec_16 regs.sp
    match MBC.write_ram m1 sp1 lo with
    | (_, .panicked) => none
    | (m2, _) => some ({ regs with sp := wrapping_dec_16 sp1 }, m2)

/-- Rust `Cpu::pop_stack` (gbars_hardware cpu.rs lines 961-969): read the HIGH
byte at SP, increment SP, read the LOW byte, increment SP, return
`(high << 8) | low`. Each read is `.unwrap()`ed. -/
def Cpu.pop_stack (regs : Registers) (memory : MBC) : Option (Registers × Nat) :=
  match memory.read_ram regs.sp with
  | none => none
  | some hi =>
    let sp1 := wrapping_inc_16 regs.sp
    match memory.read_ram sp1 with
    | none => none
    | some lo =>
      some ({ regs with sp := wrapping_inc_16 sp1 }, hi % 256 * 256 + lo % 256)

/-! ## Cartridge (src/src/classic/cartridge.rs) -/

/-- Rust `CartridgeFeature` (cartridge.rs lines 33-47). -/
inductive CartridgeFeature
  | Unknown
  | ROM
  | RAM
  | MBC1
  | MBC2
  | MBC3
  | MBC5
  | MBC6
  | MBC7
  | MMM01
  | Battery
  | Timer
  | Rumble
  | Sensor
  | PocketCamera
  | BandaiTama5
  | HuC1
  | HuC3
deriving DecidableEq, Repr

/-- Rust `Cartridge` (cartridge.rs lines 11-24). -/
structure Cartridge where
  title : String
  mbc : MBC
  features : List CartridgeFeature
  rom_size : Nat
  rom_banks : Nat
  ram_size : Nat
  ram_banks : Nat
  locale : String
  header_checksum : Nat
  global_checksum : Nat
deriving DecidableEq, Repr

/-- The MBC that `Cartridge::load` constructs when the feature list contains
`MBC1` (cartridge.rs lines 149-160): a fresh `RAM::new(ram_size)`,
`active_rom_bank: 1`, `active_ram_bank: 1`, RAM disabled, ROM-select mode. -/
def load_mbc1 (contents : List Nat) (ram_size : Nat) : MBC :=
  .MBC1
    { rom := ROM.new contents
      ram := RAM.new ram_size
      active_rom_bank := 1
      active_ram_bank := 1
      ram_enabled := false
      mode := .RomSelect }

/-- Rust `Cartridge::read_rom` (cartridge.rs lines 275-277). -/
def Cartridge.read_rom (c : Cartridge) (offset : Nat) : Option Nat :=
  c.mbc.read_rom offset

/-- The 48-byte scrolling-logo constant of `Cartridge::validate`
(cartridge.rs lines 224-231). -/
def scrolling_nintendo_graphic : List Nat :=
  [0xCE, 0xED, 0x66, 0x66, 0xCC, 0x0D, 0x00, 0x0B,
   0x03, 0x73, 0x00, 0x83, 0x00, 0x0C, 0x00, 0x0D,
   0x00, 0x08, 0x11, 0x1F, 0x88, 0x89, 0x00, 0x0E,
   0xDC, 0xCC, 0x6E, 0xE6, 0xDD, 0xDD, 0xD9, 0x99,
   0xBB, 0xBB, 0x67, 0x63, 0x6E, 0x0E, 0xEC, 0xCC,
   0xDD, 0xDC, 0x99, 0x9F, 0xBB, 0xB9, 0x33, 0x3E]

/-- The structured content of the error strings `Cartridge::validate` can
return: a logo mismatch carries the one offset, expected byte and actual
byte interpolated into its message (cartridge.rs lines 237-245); a missing
byte carries its offset (line 247); a checksum failure carries the expected
and computed sums (lines 259-266). `panicked` marks the `.unwrap()` of a
failed `read_rom_slice` (line 253). -/
inductive ValidateError
  | logoMismatch (offset expected actual : Nat)
  | missingByte (offset : Nat)
  | badChecksum (expected actual : Nat)
  | panicked
deriving DecidableEq, Repr

/-- The offsets a validation error message reports. A `logoMismatch` or
`missingByte` message names exactly one offset. -/
def ValidateError.reported_offsets : ValidateError → List Nat
  | .logoMismatch offset _ _ => [offset]
  | .missingByte offset => [offset]
  | _ => []

/-- The logo-checking loop of `Cartridge::validate` (cartridge.rs lines
233-249): `for i in 0..48`, read the ROM byte at `0x104 + i`; on the FIRST
byte that differs from the constant, return the mismatch error; on a failed
read, return the missing-byte error. `count` is the number of iterations
left and `i` the current index. -/
def check_graphic (m : MBC) : Nat → Nat → Except ValidateError Unit
  | 0, _ => .ok ()
  | count + 1, i =>
    match m.read_rom (0x104 + i) with
    | some b =>
      if b ≠ scrolling_nintendo_graphic.getD i 0 then
        .error (.logoMismatch (0x104 + i) (scrolling_nintendo_graphic.getD i 0) b)
      else check_graphic m count (i + 1)
    | none => .error (.missingByte (0x104 + i))

/-- One step of the header-checksum fold (cartridge.rs lines 253-257):
`checksum = checksum.wrapping_sub(*x).wrapping_sub(1)` on `u8`. -/
def checksum_step (acc x : Nat) : Nat :=
  ((acc + 256 - x % 256) % 256 + 255) % 256

/-- Rust `Cartridge::validate` (cartridge.rs lines 223-270): check the 48 logo
bytes, then fold the header checksum over the bytes at offsets
0x134..0x14D and compare with the stored header checksum. -/
def Cartridge.validate (c : Cartridge) : Except ValidateError Unit :=
  match check_graphic c.mbc 48 0 with
  | .error e => .error e
  | .ok () =>
    match c.mbc.read_rom_slice 0x134 0x14D with
    | none => .error .panicked
    | some bytes =>
      let checksum := bytes.foldl checksum_step 0
      if checksum ≠ c.header_checksum then
        .error (.badChecksum c.header_checksum checksum)
      else .ok ()

/-- Rust `Cartridge::is_valid` (cartridge.rs line 273). -/
def Cartridge.is_valid (c : Cartridge) : Bool :=
  match c.validate with
  | .ok () => true
  | .error _ => false

/-! ## Address bus (src/gbars_hardware/src/classic/console.rs) -/

def ROM_BANK_0_START : Nat := 0x0000
def ROM_BANK_N_START : Nat := 0x4000
def CHR_RAM_START : Nat := 0x8000
def BG_MAP_DATA_1_START : Nat := 0x9800
def BG_MAP_DATA_2_START : Nat := 0x9C00
def CARTRIDGE_RAM_START : Nat := 0xA000
def WRAM_START : Nat := 0xC000
def ECHO_RAM_START : Nat := 0xE000
def OAM_START : Nat := 0xFE00
def OAM_END : Nat := 0xFEA0
def HARDWARE_IO_START : Nat := 0xFF00
def HIGH_RAM_START : Nat := 0xFF80
def IE_START : Nat := 0xFFFF

def CHR_RAM_SIZE : Nat := BG_MAP_DATA_1_START - CHR_RAM_START
def BG_MAP_DATA_SIZE : Nat := CARTRIDGE_RAM_START - BG_MAP_DATA_1_START
def WRAM_SIZE : Nat := ECHO_RAM_START - WRAM_START
def ECHO_RAM_SIZE : Nat := OAM_START - ECHO_RAM_START
def OAM_SIZE : Nat := OAM_END - OAM_START
def HARDWARE_IO_SIZE : Nat := HIGH_RAM_START - HARDWARE_IO_START
def HIGH_RAM_SIZE : Nat := IE_START - HIGH_RAM_START

/-- Rust `Console` (console.rs lines 33-44). -/
structure Console where
  cartridge : Option Cartridge
  chr_ram : List Nat
  bg_data : List Nat
  wram : List Nat
  oam : List Nat
  hardware : List Nat
  hi_ram : List Nat
  ie : Bool
deriving DecidableEq, Repr

/-- Rust `Console::start` (console.rs lines 47-58): zero-filled regions. -/
def Console.start (cartridge : Option Cartridge) : Console :=
  { cartridge
    chr_ram := List.replicate CHR_RAM_SIZE 0
    bg_data := List.replicate BG_MAP_DATA_SIZE 0
    wram := List.replicate WRAM_SIZE 0
    oam := List.replicate OAM_SIZE 0
    hardware := List.replicate HARDWARE_IO_SIZE 0
    hi_ram := List.replicate HIGH_RAM_SIZE 0
    ie := false }

/-- Result of `Console::read`: the source returns `Option<u8>` but panics on
offsets above 0xFFFF; `val` wraps the returned option. -/
inductive BusRead
  | panicked
  | val (v : Option Nat)
deriving DecidableEq, Repr

/-- Result of `Console::write`: the source mutates in place and returns
`Option<()>`; here `val (some c)` is `Some(())` together with the updated
console, `val none` is `None` (the console is unchanged), and `panicked` is
the `panic!()` on offsets above 0xFFFF. -/
inductive BusWrite
  | panicked
  | val (c : Option Console)
deriving DecidableEq, Repr

/-- Rust `Console::read` (console.rs lines 60-108). Note the echo-RAM arm
(lines 88-89) indexes `wram` at `offset - (ECHO_RAM_START - WRAM_START)`,
i.e. `offset - 0x2000`. -/
def Console.read (c : Console) (offset : Nat) : BusRead :=
  if offset > 0xFFFF then .panicked
  else if offset ≤ 0x7FFF then
    match c.cartridge with
    | some cart => .val (cart.read_rom offset)
    | none => .val none
  else if offset ≤ 0x97FF then .val (c.chr_ram[offset - CHR_RAM_START]?)
  else if offset ≤ 0x9FFF then .val (c.bg_data[offset - BG_MAP_DATA_1_START]?)
  else if offset ≤ 0xBFFF then
    match c.cartridge with
    | some cart => .val (cart.mbc.read_ram (offset - CARTRIDGE_RAM_START))
    | none => .val none
  else if offset ≤ 0xDFFF then .val (c.wram[offset - WRAM_START]?)
  else if offset ≤ 0xFDFF then .val (c.wram[offset - (ECHO_RAM_START - WRAM_START)]?)
  else if offset ≤ 0xFE9F then .val (c.oam[offset - OAM_START]?)
  else if offset ≤ 0xFEFF then .val none
  else if offset ≤ 0xFF7F then .val (c.hardware[offset - HARDWARE_IO_START]?)
  else if offset ≤ 0xFFFE then .val (c.hi_ram[offset - HIGH_RAM_START]?)
  else .val (some (if c.ie then 1 else 0))

/-- Rust `Vec::get_mut(i).map(|b| *b = data)` on one region: `Some(())` with the
element replaced when `i` is in bounds, `None` otherwise. -/
def set_region (l : List Nat) (i data : Nat) : Option (List Nat) :=
  if i < l.length then some (l.set i (data % 256)) else none

/-- Rust `Console::write` (console.rs lines 110-165). The cartridge-RAM arm
(lines 131-135) forwards to `cart.mbc.write_rom(offset - CARTRIDGE_RAM_START,
data)` — `write_rom`, not `write_ram`. The echo arm (lines 142-143) indexes
`wram` at `offset - 0x2000`, like the read path. -/
def Console.write (c : Console) (offset data : Nat) : BusWrite :=
  if offset > 0xFFFF then .panicked
  else if offset ≤ 0x7FFF then
    match c.cartridge with
    | some cart =>
      let cart2 := { cart with mbc := cart.mbc.write_rom offset data }
      .val (some { c with cartridge := some cart2 })
    | none => .val none
  else if offset ≤ 0x97FF then
    .val ((set_region c.chr_ram (offset - CHR_RAM_START) data).map
      (fun l => { c with chr_ram := l }))
  else if offset ≤ 0x9FFF then
    .val ((set_region c.bg_data (offset - BG_MAP_DATA_1_START) data).map
      (fun l => { c with bg_data := l }))
  else if offset ≤ 0xBFFF then
    match c.cartridge with
    | some cart =>
      let cart2 := { cart with mbc := cart.mbc.write_rom (offset - CARTRIDGE_RAM_START) data }
      .val (some { c with cartridge := some cart2 })
    | none => .val none
  else if offset ≤ 0xDFFF then
    .val ((set_region c.wram (offset - WRAM_START) data).map
      (fun l => { c with wram := l }))
  else if offset ≤ 0xFDFF then
    .val ((set_region c.wram (offset - (ECHO_RAM_START - WRAM_START)) data).map
      (fun l => { c with wram := l }))
  else if offset ≤ 0xFE9F then
    .val ((set_region c.oam (offset - OAM_START) data).map
      (fun l => { c with oam := l }))
  else if offset ≤ 0xFEFF then .val none
  else if offset ≤ 0xFF7F then
    .val ((set_region c.hardware (offset - HARDWARE_IO_START) data).map
      (fun l => { c with hardware := l }))
  else if offset ≤ 0xFFFE then
    .val ((set_region c.hi_ram (offset - HIGH_RAM_START) data).map
      (fun l => { c with hi_ram := l }))
  else .val (some { c with ie := data ≠ 0 })


/-! ## Concrete fixtures used by the claim theorems -/

/-- Concrete register file with C = 1 and E = 2 (for claim C1). -/
def c1_regs : Registers := { Registers.init with c := 1, e := 2 }

/-- Stack memory for the PUSH/POP experiment of claim C2: an MBC1 whose
cartridge RAM is 8 zero bytes, so offsets 0..7 are readable and writable. -/
def c2_mbc : MBC :=
  .MBC1
    { rom := ROM.new []
      ram := ⟨List.replicate 8 0⟩
      active_rom_bank := 1
      active_ram_bank := 1
      ram_enabled := true
      mode := .RomSelect }

/-- Register file with SP = 5 (for claim C2). -/
def c2_regs : Registers := { Registers.init with sp := 5 }

/-- A 4-bank ROM image (64 KiB) for claim C3: bank 0 filled with 0x10,
bank 1 with 0x11, bank 2 with 0x12, bank 3 with 0x13. -/
def c3_rom : List Nat :=
  List.replicate 0x4000 0x10 ++
    (List.replicate 0x4000 0x11 ++
      (List.replicate 0x4000 0x12 ++ List.replicate 0x4000 0x13))

/-- The MBC1 that `Cartridge::load` would build over `c3_rom`. -/
def c3_mbc : MBC := load_mbc1 c3_rom 0

/-- The console state expected after writing byte 0xAB at bus address 0xC000
on a freshly started console (for claim C4): work RAM cell 0 updated. -/
def c4_after : Console :=
  { cartridge := none
    chr_ram := List.replicate CHR_RAM_SIZE 0
    bg_data := List.replicate BG_MAP_DATA_SIZE 0
    wram := (List.replicate WRAM_SIZE 0).set 0 0xAB
    oam := List.replicate OAM_SIZE 0
    hardware := List.replicate HARDWARE_IO_SIZE 0
    hi_ram := List.replicate HIGH_RAM_SIZE 0
    ie := false }

/-- Register file with A = 0 and F = 0x50, i.e. N and C set, Z and H clear
(for claim C5). -/
def c5_regs : Registers := { Registers.init with a := 0x00, f := 0x50 }

/-- Register file with A = 0xFF and all flags clear (for claim C6). -/
def c6_regs : Registers := { Registers.init with a := 0xFF }

/-- Register file with F = 0x90, i.e. Z and C set (for claim C7). -/
def c7_regs : Registers := { Registers.init with f := 0x90 }

/-- An MBC1 with one byte of cartridge RAM holding 0x55, RAM disabled, ROM
bank 1, RAM bank 1, ROM-select mode (for claim C8). -/
def c8_mbc : MBC :=
  .MBC1
    { rom := ROM.new []
      ram := ⟨[0x55]⟩
      active_rom_bank := 1
      active_ram_bank := 1
      ram_enabled := false
      mode := .RomSelect }

/-- Cartridge holding `c8_mbc` (for claim C8). -/
def c8_cart : Cartridge :=
  { title := ""
    mbc := c8_mbc
    features := [.MBC1, .RAM]
    rom_size := 0
    rom_banks := 0
    ram_size := 0
    ram_banks := 0
    locale := ""
    header_checksum := 0
    global_checksum := 0 }

/-- Expected MBC state after the claim-C8 bus write: like `c8_mbc` but with
the RAM-enable flag turned on and the RAM byte untouched. -/
def c8_mbc_after : MBC :=
  .MBC1
    { rom := ROM.new []
      ram := ⟨[0x55]⟩
      active_rom_bank := 1
      active_ram_bank := 1
      ram_enabled := true
      mode := .RomSelect }

/-- Cartridge holding `c8_mbc_after` (for claim C8). -/
def c8_cart_after : Cartridge := { c8_cart with mbc := c8_mbc_after }

/-- Console started with the claim-C8 cartridge. -/
def c8_console : Console := Console.start (some c8_cart)

/-- Console state after the claim-C8 bus write. -/
def c8_after : Console := { c8_console with cartridge := some c8_cart_after }

/-- Position `i` of the cartridge logo matches the reference constant:
`read_rom(0x104 + i)` returns exactly the expected graphic byte (used to
state claim C9). -/
def logo_ok (m : MBC) (i : Nat) : Prop :=
  m.read_rom (0x104 + i) = some (scrolling_nintendo_graphic.getD i 0)

instance logo_ok_decidable (m : MBC) (i : Nat) : Decidable (logo_ok m i) := by
  unfold logo_ok
  exact inferInstance

/-- Cartridge whose ROM is 336 bytes of 0x07, so every logo byte mismatches
(for claim C9). -/
def c9_cart : Cartridge :=
  { title := ""
    mbc := .RomOnly (ROM.new (List.replicate 0x150 7))
    features := [.ROM]
    rom_size := 0
    rom_banks := 0
    ram_size := 0
    ram_banks := 0
    locale := ""
    header_checksum := 0
    global_checksum := 0 }

/-! ## Helper lemma for the validation loop -/

/-- Specification of the logo-checking loop `check_graphic`: over a window of
`count` indices starting at `i` whose reads all succeed, either every byte
matches and the loop returns `Ok`, or the loop returns the mismatch error
for the FIRST mismatching index of the window. -/
theorem check_graphic_spec (m : MBC) (count : Nat) : ∀ i,
    (∀ j, i ≤ j → j < i + count → (m.read_rom (0x104 + j)).isSome) →
    ((∀ j, i ≤ j → j < i + count → logo_ok m j) ∧ check_graphic m count i = .ok ()) ∨
    (∃ j, i ≤ j ∧ j < i + count ∧ ∃ b, m.read_rom (0x104 + j) = some b ∧
      b ≠ scrolling_nintendo_graphic.getD j 0 ∧
      check_graphic m count i =
        .error (.logoMismatch (0x104 + j) (scrolling_nintendo_graphic.getD j 0) b) ∧
      ∀ j2, i ≤ j2 → j2 < j → logo_ok m j2) := by
  induction count with
  | zero =>
    intro i _
    exact Or.inl ⟨fun j h1 h2 => absurd h2 (by omega), rfl⟩
  | succ k ih =>
    intro i hread
    have hi : (m.read_rom (0x104 + i)).isSome := hread i le_rfl (by omega)
    obtain ⟨b, hb⟩ := Option.isSome_iff_exists.mp hi
    have hedef : check_graphic m (k + 1) i =
        if b ≠ scrolling_nintendo_graphic.getD i 0 then
          .error (.logoMismatch (0x104 + i) (scrolling_nintendo_graphic.getD i 0) b)
        else check_graphic m k (i + 1) := by
      simp only [check_graphic, hb]
    by_cases hbe : b = scrolling_nintendo_graphic.getD i 0
    · have hstep : check_graphic m (k + 1) i = check_graphic m k (i + 1) := by
        rw [hedef, if_neg (not_not_intro hbe)]
      have ih2 := ih (i + 1) (fun j h1 h2 => hread j (by omega) (by omega))
      rcases ih2 with ⟨hall, hok⟩ | ⟨j, hj1, hj2, b2, hb2, hne2, herr2, hfirst2⟩
      · left
        refine ⟨?_, by rw [hstep]; exact hok⟩
        intro j h1 h2
        rcases Nat.eq_or_lt_of_le h1 with heq | hlt
        · subst heq
          exact hb.trans (by rw [hbe])
        · exact hall j (by omega) (by omega)
      · right
        refine ⟨j, by omega, by omega, b2, hb2, hne2, by rw [hstep]; exact herr2, ?_⟩
        intro j2 hj3 hj4
        by_cases hj5 : i + 1 ≤ j2
        · exact hfirst2 j2 hj5 hj4
        · have hji : j2 = i := by omega
          subst hji
          exact hb.trans (by rw [hbe])
    · right
      refine ⟨i, le_rfl, by omega, b, hb, hbe, ?_, fun j2 h1 h2 => absurd h2 (by omega)⟩
      rw [hedef, if_pos hbe]

/-! ## Claim C1: 16-bit register-pair aliasing -/

/-- Claim C1 states that for every pair (X,Y) ∈ {(A,F),(B,C),(D,E),(H,L)}
`get_XY()` returns `(X << 8) | Y` and `set_XY(get_XY())` is the identity. It
FAILS for the pair (D,E): `get_de` reads register C as the low byte, so with
C = 1 and E = 2 it returns 0x0001 instead of (D << 8) | E = 0x0002, and
`set_de(get_de())` overwrites E with the value of C. -/
theorem c1_get_de_reads_register_c :
    c1_regs.get_de = 0x0001 ∧
    c1_regs.d % 256 * 256 + c1_regs.e % 256 = 0x0002 ∧
    c1_regs.set_de c1_regs.get_de ≠ c1_regs ∧
    (c1_regs.set_de c1_regs.get_de).e = 1 := by decide

/-! ## Claim C2: PUSH then POP round trip -/

/-- Claim C2 states that PUSH v then POP yields v and restores SP. It FAILS
on the value: `push_stack` stores the high byte at SP and the low byte at
SP-1 (post-decrementing), while `pop_stack` reads the HIGH byte at the new
SP (= original SP - 2, a cell PUSH never wrote) and the low byte at SP-1.
Pushing 0x1234 with SP = 5 over zeroed RAM pops 0x0034, not 0x1234; SP is
restored to 5 as claimed. -/
theorem c2_push_pop_loses_high_byte :
    ((Cpu.push_stack c2_regs c2_mbc 0x1234).bind fun rm => Cpu.pop_stack rm.1 rm.2)
      = some (c2_regs, 0x0034) ∧ (0x0034 : Nat) ≠ 0x1234 := by decide

/-! ## Claim C3: banked ROM reads -/

/-- Claim C3 states that a ROM-space read at offset ≥ 0x4000 returns the
byte at physical offset `active_bank * 0x4000 + (offset - 0x4000)`, so that
after `write_rom(0x2000, 0x00)` (bank 0, promoted to 1 at read time) a
`read_rom(0x4000)` returns the byte at physical 0x4000. It FAILS: the code
reads physical `active_bank * 0x4000 + offset` without subtracting 0x4000,
so the read lands at physical 0x8000 (bank 2's first byte, 0x12) instead of
0x4000 (bank 1's first byte, 0x11). -/
theorem c3_banked_read_misses_offset_subtraction :
    MBC.read_rom (MBC.write_rom c3_mbc 0x2000 0x00) 0x4000 = some 0x12 ∧
    c3_rom[0x4000]? = some 0x11 ∧ (0x12 : Nat) ≠ 0x11 := by
  have hw : MBC.write_rom c3_mbc 0x2000 0x00 =
      .MBC1 { rom := ROM.new c3_rom, ram := RAM.new 0, active_rom_bank := 0,
              active_ram_bank := 1, ram_enabled := false, mode := .RomSelect } := rfl
  have hr1 : MBC.read_rom
      (.MBC1 { rom := ROM.new c3_rom, ram := RAM.new 0, active_rom_bank := 0,
               active_ram_bank := 1, ram_enabled := false, mode := .RomSelect }) 0x4000 =
      read_rom_bank (ROM.new c3_rom) 0x4000 1 := rfl
  have hr2 : read_rom_bank (ROM.new c3_rom) 0x4000 1 = c3_rom[(0x8000 : Nat)]? := by
    show (if (0x4000 : Nat) < 0x4000 then ROM.read_byte (ROM.new c3_rom) 0x4000
          else ROM.read_byte (ROM.new c3_rom) (0x4000 * 1 + 0x4000)) = c3_rom[(0x8000 : Nat)]?
    rw [if_neg (by norm_num : ¬((0x4000 : Nat) < 0x4000))]
    show c3_rom[0x4000 * 1 + 0x4000]? = c3_rom[(0x8000 : Nat)]?
    rw [show (0x4000 * 1 + 0x4000 : Nat) = 0x8000 from by norm_num]
  refine ⟨?_, ?_, by decide⟩
  · rw [hw, hr1, hr2]
    simp only [c3_rom, List.getElem?_append, List.length_replicate, List.getElem?_replicate]
    norm_num
  · simp only [c3_rom, List.getElem?_append, List.length_replicate, List.getElem?_replicate]
    norm_num

/-! ## Claim C4: echo-RAM mirroring -/

/-- Claim C4 states that bytes written at 0xC000+d can be read back at
0xE000+d and vice versa. It FAILS: the echo arms of `Console::read` and
`Console::write` index the work-RAM vector at `offset - 0x2000` (an absolute
bus address, 0xC000+d) instead of `offset - 0xE000`, which is out of bounds
for the 0x2000-byte vector, so every echo access returns `None`. Writing
0xAB at 0xC000 succeeds and reads back at 0xC000, but the mirrored read at
0xE000 returns `None`, and the write at 0xE000 also returns `None`. -/
theorem c4_echo_accesses_out_of_bounds :
    (Console.start none).write 0xC000 0xAB = .val (some c4_after) ∧
    c4_after.read 0xE000 = .val none ∧
    c4_after.read 0xC000 = .val (some 0xAB) ∧
    (Console.start none).write 0xE000 0xAB = .val none := by
  refine ⟨?_, ?_, ?_, ?_⟩
  · show BusWrite.val ((set_region (Console.start none).wram (0xC000 - WRAM_START) 0xAB).map
      (fun l => { Console.start none with wram := l })) = .val (some c4_after)
    rw [show (Console.start none).wram = List.replicate WRAM_SIZE 0 from rfl]
    rw [show 0xC000 - WRAM_START = 0 from rfl]
    show BusWrite.val ((if 0 < (List.replicate WRAM_SIZE 0).length then
        some ((List.replicate WRAM_SIZE 0).set 0 (0xAB % 256)) else none).map
      (fun l => { Console.start none with wram := l })) = .val (some c4_after)
    rw [List.length_replicate]
    rw [if_pos (by norm_num [WRAM_SIZE, ECHO_RAM_START, WRAM_START] : (0 : Nat) < WRAM_SIZE)]
    rw [show (0xAB % 256 : Nat) = 0xAB from rfl]
    rw [Option.map_some']
    rfl
  · show BusRead.val (c4_after.wram[0xE000 - (ECHO_RAM_START - WRAM_START)]?) = .val none
    rw [show c4_after.wram = (List.replicate WRAM_SIZE 0).set 0 0xAB from rfl]
    rw [show 0xE000 - (ECHO_RAM_START - WRAM_START) = 0xC000 from rfl]
    rw [List.getElem?_eq_none (by
      rw [List.length_set, List.length_replicate]
      norm_num [WRAM_SIZE, ECHO_RAM_START, WRAM_START])]
  · show BusRead.val (c4_after.wram[0xC000 - WRAM_START]?) = .val (some 0xAB)
    rw [show c4_after.wram = (List.replicate WRAM_SIZE 0).set 0 0xAB from rfl]
    rw [show 0xC000 - WRAM_START = 0 from rfl]
    rw [List.getElem?_set_self]
    rw [List.length_replicate]
    norm_num [WRAM_SIZE, ECHO_RAM_START, WRAM_START]
  · show BusWrite.val ((set_region (Console.start none).wram
        (0xE000 - (ECHO_RAM_START - WRAM_START)) 0xAB).map
      (fun l => { Console.start none with wram := l })) = .val none
    rw [show (Console.start none).wram = List.replicate WRAM_SIZE 0 from rfl]
    rw [show 0xE000 - (ECHO_RAM_START - WRAM_START) = 0xC000 from rfl]
    show BusWrite.val ((if 0xC000 < (List.replicate WRAM_SIZE 0).length then
        some ((List.replicate WRAM_SIZE 0).set 0xC000 (0xAB % 256)) else none).map
      (fun l => { Console.start none with wram := l })) = .val none
    rw [List.length_replicate]
    rw [if_neg (by norm_num [WRAM_SIZE, ECHO_RAM_START, WRAM_START] :
      ¬((0xC000 : Nat) < WRAM_SIZE))]
    rfl

/-! ## Claim C5: DAA -/

/-- Claim C5 states that with N=1 and C=1, `daa` subtracts 0x60 from A
(here: A = 0 - 0x60 = 0xA0) and that N is unchanged. It FAILS: the source
applies the ADD-path adjustment (add 0x60, set C) inside the `self.neg()`
branch and the SUB-path adjustment in the N=0 branch — the branches are
swapped — and `set_flags` clears N (a `None` argument contributes a zero
bit). The code yields A = 0x60 and F = 0x10 (N cleared, C set). -/
theorem c5_daa_branches_swapped :
    c5_regs.neg = true ∧ c5_regs.carry = true ∧
    c5_regs.daa.a = 0x60 ∧ c5_regs.daa.neg = false ∧ c5_regs.daa.f = 0x10 ∧
    (0 + 256 - 0x60) % 256 = 0xA0 ∧ (0x60 : Nat) ≠ 0xA0 := by decide

/-! ## Claim C6: ADD flags and the half-carry predicate -/

/-- Claim C6 states that ADD A,0x01 with A = 0xFF yields A = 0, Z=1, H=1,
C=1, N=0, and that in general H equals `((b & 0x0F) + (d & 0x0F)) & 0x10 != 0`
with d the OPERAND. The H part FAILS: `Registers::add` computes
`half_carry_occurred(before, after)` with the RESULT byte as second
argument, so here H comes out false ((0xF + 0x0) & 0x10 = 0) although the
claimed predicate over the operand is true ((0xF + 0x1) & 0x10 = 0x10). A,
Z, C and N match the claim. -/
theorem c6_add_half_carry_uses_result :
    (c6_regs.add 0x01).a = 0x00 ∧ (c6_regs.add 0x01).zero = true ∧
    (c6_regs.add 0x01).carry = true ∧ (c6_regs.add 0x01).neg = false ∧
    (c6_regs.add 0x01).half_carry = false ∧
    ((0xFF &&& 0x0F) + (0x01 &&& 0x0F)) &&& 0x10 ≠ 0 := by decide

/-! ## Claim C7: flags listed as "unchanged" -/

/-- Claim C7 states that flags listed "unchanged" keep their prior value: C
across INC/DEC r8, Z and C across CPL, Z across SCF and CCF. It FAILS:
`set_flags` rebuilds F from scratch and writes a zero bit for every `None`
argument, so with Z and C initially set, CPL clears both, SCF and CCF clear
Z, and the DEC-r8 flag update clears C. -/
theorem c7_unchanged_flags_cleared :
    c7_regs.zero = true ∧ c7_regs.carry = true ∧
    c7_regs.cpl.zero = false ∧ c7_regs.cpl.carry = false ∧
    (Cpu.scf c7_regs).zero = false ∧ (Cpu.ccf c7_regs).zero = false ∧
    (Cpu.dec8_flags c7_regs 0x10).carry = false := by decide

/-! ## Claim C8: cartridge-RAM bus writes -/

/-- Claim C8 states that bus writes in 0xA000-0xBFFF go to the MBC's
cartridge-RAM write and leave the bank-control state unchanged. It FAILS:
`Console::write` routes the range to `write_rom(offset - 0xA000, data)`, the
bank-control decoder. Writing 0x0A at 0xA000 flips the MBC1 RAM-enable flag
from false to true and leaves the RAM byte unwritten, so a subsequent bus
read at 0xA000 returns the old 0x55, not 0x0A. (The read path correctly
uses `read_ram`.) -/
theorem c8_bus_write_hits_bank_control :
    c8_console.write 0xA000 0x0A = .val (some c8_after) ∧
    c8_after.read 0xA000 = .val (some 0x55) ∧ (0x55 : Nat) ≠ 0x0A := by
  refine ⟨rfl, rfl, by decide⟩

/-! ## Claim C9: logo validation error reporting -/

/-- Claim C9 as amended: for every cartridge whose 48 logo bytes are all
readable but not all equal to the reference constant, `validate` returns an
error reporting the FIRST (lowest-offset) mismatch together with its
expected byte and the actual byte found — not every mismatching offset. -/
theorem c9_validate_reports_first_mismatch (c : Cartridge)
    (hread : ∀ i, i < 48 → ((c.mbc.read_rom (0x104 + i)).isSome : Prop))
    (hmis : ¬ ∀ i, i < 48 → logo_ok c.mbc i) :
    ∃ j, j < 48 ∧ ∃ b, c.mbc.read_rom (0x104 + j) = some b ∧
      b ≠ scrolling_nintendo_graphic.getD j 0 ∧
      c.validate = .error (.logoMismatch (0x104 + j) (scrolling_nintendo_graphic.getD j 0) b) ∧
      ∀ j2, j2 < j → logo_ok c.mbc j2 := by
  have hs := check_graphic_spec c.mbc 48 0 (fun j _ h2 => hread j (by omega))
  rcases hs with ⟨hall, _⟩ | ⟨j, _, hj2, b, hb, hne, herr, hfirst⟩
  · exact absurd (fun i hi => hall i (Nat.zero_le i) (by omega)) hmis
  · refine ⟨j, by omega, b, hb, hne, ?_, fun j2 h2 => hfirst j2 (Nat.zero_le j2) h2⟩
    unfold Cartridge.validate
    rw [herr]

set_option maxRecDepth 40000 in
/-- Witness for claim C9's amended theorem at the concrete cartridge
`c9_cart` (all logo bytes readable, all mismatching). -/
theorem c9_witness :
    ∃ j, j < 48 ∧ ∃ b, c9_cart.mbc.read_rom (0x104 + j) = some b ∧
      b ≠ scrolling_nintendo_graphic.getD j 0 ∧
      c9_cart.validate = .error (.logoMismatch (0x104 + j) (scrolling_nintendo_graphic.getD j 0) b) ∧
      ∀ j2, j2 < j → logo_ok c9_cart.mbc j2 :=
  c9_validate_reports_first_mismatch c9_cart (by decide) (by decide)

set_option maxRecDepth 40000 in
/-- Counterexample to claim C9 as stated: `c9_cart` mismatches the logo at
offsets 0x104 AND 0x105 (among others), yet the error `validate` returns
names only offset 0x104 — it does not list every mismatching offset. -/
theorem c9_single_offset_reported :
    c9_cart.validate = .error (.logoMismatch 0x104 0xCE 7) ∧
    c9_cart.mbc.read_rom 0x105 = some 7 ∧ (7 : Nat) ≠ 0xED ∧
    0x105 ∉ (ValidateError.logoMismatch 0x104 0xCE 7).reported_offsets := by
  refine ⟨rfl, rfl, by decide, by decide⟩

/-! ## Claim C10: cartridge RAM construction and the write guard -/

/-- Claim C10: `RAM::new(size)` only reserves capacity, so the vector it
returns has length 0 for every size; consequently every `read_ram` on the
MBC that `Cartridge::load` builds returns `None`. The out-of-bounds guard of
`RAM::write_byte` rejects only `offset > len`: at `offset = len` it falls
through to the vector index `self[offset]`, which panics, while offsets
strictly beyond the length get the descriptive error. -/
theorem c10_ram_new_empty_and_off_by_one_guard :
    (∀ size, (RAM.new size).data.length = 0) ∧
    (∀ contents ram_size offset, (load_mbc1 contents ram_size).read_ram offset = none) ∧
    (∀ (ram : RAM) (d : Nat), (ram.write_byte ram.data.length d).2 = .panicked) ∧
    (∀ (ram : RAM) (k d : Nat),
      (ram.write_byte (ram.data.length + (k + 1)) d).2 =
        .err ("Could not write data at offset " ++
          toString (ram.data.length + (k + 1)) ++ ": Out of bounds")) := by
  refine ⟨fun _ => rfl, ?_, ?_, ?_⟩
  · intro contents ram_size offset
    simp [load_mbc1, MBC.read_ram, RAM.new, RAM.read_byte]
  · intro ram d
    simp [RAM.write_byte]
  · intro ram k d
    simp [RAM.write_byte]

end Gbars
